import Mathlib

/-!
Shallow embedding of `src/app.py` (a tkinter multi-tab text editor).

The editor keeps, per tab: the notebook tab label (the string shown in the
tab header, which is also the only stored label), the live text buffer of
the `tk.Text` widget, and the widget's tk path name (`str(text_area)`),
which keys the `text_contents` dictionary mapping widget name to
`hash(content)` of the last saved/loaded content.

Python's `hash` on strings is process-seeded and otherwise unspecified, so
the whole model is parameterised by an arbitrary fingerprint function
`h : String → Int`.
-/

namespace TextEditor

/-- One notebook tab: the `ttk.Frame`/`tk.Text` pair of `create_file`.
`widgetName` models `str(text_area)`, `label` the notebook tab text
(`notebook.tab(..., text=...)`), `buffer` the text widget content
(`text_area.get('1.0', 'end-1c')`). -/
structure Tab where
  widgetName : String
  label : String
  buffer : String
  deriving Repr, DecidableEq

/-- The mutable state of the `TextEditor` object: the ordered notebook
tabs, the index of the selected tab (`notebook.select()`), the
`text_contents` dictionary (association list, insertion-ordered like a
Python dict), and a counter from which tkinter-style fresh widget names
are generated. -/
structure EditorState where
  tabs : List Tab
  currentIdx : Nat
  textContents : List (String × Int)
  nextWidgetId : Nat
  deriving Repr, DecidableEq

/-- Python dict lookup `d[k]` (as an `Option`; the successful case —
the only one reachable here, since every text area gets an entry at
creation — returns `some`). -/
def dictGet : List (String × Int) → String → Option Int
  | [], _ => none
  | kv :: rest, k => if kv.1 = k then some kv.2 else dictGet rest k

/-- Python dict assignment `d[k] = v`: replace in place, or append. -/
def dictSet : List (String × Int) → String → Int → List (String × Int)
  | [], k, v => [(k, v)]
  | kv :: rest, k, v =>
    if kv.1 = k then (k, v) :: rest else kv :: dictSet rest k v

/-- The characters after the last separator of a path. -/
def lastSegment (l : List Char) : List Char :=
  l.foldl (fun acc c => if c = '/' then [] else acc ++ [c]) []

/-- `os.path.basename` for POSIX-style paths: the part after the last
separator (empty when the path ends in a separator or is empty). -/
def baseName (p : String) : String :=
  String.mk (lastSegment p.data)

/-- `create_file(content, title)` (src/app.py lines 66–98): build a fresh
text area, insert `content`, add a notebook tab labelled `title`, select
it, and record `text_contents[str(text_area)] = hash(content)`. -/
def create_file (h : String → Int) (st : EditorState)
    (content : String := "") (title : String := "Untitled") : EditorState :=
  let name := "text" ++ toString st.nextWidgetId
  { tabs := st.tabs ++ [⟨name, title, content⟩]
    currentIdx := st.tabs.length
    textContents := dictSet st.textContents name (h content)
    nextWidgetId := st.nextWidgetId + 1 }

/-- The current tab (`get_text_area` resolves `notebook.select()` to the
text widget of the selected tab container). -/
def currentTab (st : EditorState) : Option Tab :=
  st.tabs[st.currentIdx]?

/-- `is_current_tab_unsaved` (lines 116–125):
`hash(content) != self.text_contents[str(text_area)]`.
(With no current tab, `get_text_area` would raise in Python; that state
is unreachable between events and modelled as `false`.) -/
def is_current_tab_unsaved (h : String → Int) (st : EditorState) : Bool :=
  match currentTab st with
  | none => false
  | some tab => some (h tab.buffer) != dictGet st.textContents tab.widgetName

/-- Dirtiness of one tab against the dictionary — the comparison done by
the loop body of `confirm_quit` and by `check_for_changes`. -/
def isDirtyTab (h : String → Int) (tc : List (String × Int)) (tab : Tab) : Bool :=
  some (h tab.buffer) != dictGet tc tab.widgetName

/-- The label update of `check_for_changes` (lines 163–168): if dirty and
the label's last character is not `*`, append `*`; if clean and the last
character is `*`, drop it (`tab_label[:-1]`). On an empty label Python's
`tab_label[-1]` would raise `IndexError`; labels are nonempty in every
reachable state, and the model reads `getLast?` of the character list. -/
def toggleLabel (dirty : Bool) (label : String) : String :=
  if dirty then
    if label.data.getLast? ≠ some '*' then label ++ "*" else label
  else
    if label.data.getLast? = some '*' then String.mk label.data.dropLast else label

/-- `check_for_changes` (lines 152–168): recompute dirtiness of the
current tab and toggle the trailing `*` on its notebook label. -/
def check_for_changes (h : String → Int) (st : EditorState) : EditorState :=
  match st.tabs[st.currentIdx]? with
  | none => st
  | some tab =>
    let dirty := isDirtyTab h st.textContents tab
    { st with
      tabs := st.tabs.set st.currentIdx { tab with label := toggleLabel dirty tab.label } }

/-- Outcome of `open(path, 'w')` plus the write, as the external OS layer
can answer it. `save_file` catches only `AttributeError` and
`FileNotFoundError`; any other `OSError` (e.g. `PermissionError`) escapes
the handler. A cancelled save dialog yields `file_path = ''`, and
`open('', 'w')` raises `FileNotFoundError`. -/
inductive WriteOutcome where
  | ok
  | notFound
  | permission
  deriving Repr, DecidableEq

/-- The external file system: readable content per path (`none` means
`open(path, 'r')` raises `FileNotFoundError` — a missing file, or the
empty path of a cancelled open dialog) and the outcome of opening a path
for writing. -/
structure FS where
  files : String → Option String
  writeMode : String → WriteOutcome

/-- Writing replaces the full content at the path (text-mode full
overwrite). -/
def fsWrite (fs : FS) (path content : String) : FS :=
  { fs with files := fun p => if p = path then some content else fs.files p }

/-- What a command made the process emit towards the user: nothing, a
`print(...)` on the console, a `messagebox` dialog, or an uncaught
exception (a traceback on stderr via tkinter's callback handler). -/
inductive Report where
  | silent
  | consolePrint (msg : String)
  | dialogInfo (title msg : String)
  | uncaughtException
  deriving Repr, DecidableEq

/-- Whether the report is surfaced to the user as a dialog (the only
user-facing error channel the program ever uses is `messagebox`). -/
def Report.isUserDialog : Report → Bool
  | .dialogInfo _ _ => true
  | _ => false

/-- `save_file` (lines 170–193) with the picked path `filePath`:
compute `filename = basename(file_path)` and the current buffer, try to
write; on `FileNotFoundError` (including the cancelled dialog's empty
path) print `Save Operation Cancelled.` and return; on any other
`OSError` the exception escapes before any state update; on success set
the notebook label to `filename` and
`text_contents[str(text_area)] = hash(content)`. -/
def save_file (h : String → Int) (st : EditorState) (fs : FS)
    (filePath : String) : EditorState × FS × Report :=
  match currentTab st with
  | none => (st, fs, .uncaughtException)
  | some tab =>
    let filename := baseName filePath
    let content := tab.buffer
    match fs.writeMode filePath with
    | .notFound => (st, fs, .consolePrint "Save Operation Cancelled.")
    | .permission => (st, fs, .uncaughtException)
    | .ok =>
      ({ st with
          tabs := st.tabs.set st.currentIdx { tab with label := filename }
          textContents := dictSet st.textContents tab.widgetName (h content) },
        fsWrite fs filePath content,
        .silent)

/-- `open_file` (lines 195–211) with the picked path `filePath`: read the
file; on `FileNotFoundError` (missing path, or the empty path of a
cancelled dialog) print `Open Operation Cancelled.` and return with no
tab created; otherwise `create_file(content, basename(path))`. Nothing
besides the label and the buffer is taken from the path. -/
def open_file (h : String → Int) (st : EditorState) (fs : FS)
    (filePath : String) : EditorState × Report :=
  match fs.files filePath with
  | none => (st, .consolePrint "Open Operation Cancelled.")
  | some content => (create_file h st content (baseName filePath), .silent)

/-- `close_current_tab` (lines 136–150), with `answer` the reply the
Confirmation Gate (`confirm_close`, an `askyesno` dialog) would give: if
the current tab is unsaved and the answer is No, do nothing; otherwise
`notebook.forget` the tab and, if the notebook became empty, create a
fresh default tab. Returns the new state and how many times the gate was
invoked. -/
def close_current_tab (h : String → Int) (st : EditorState)
    (answer : Bool) : EditorState × Nat :=
  let dirty := is_current_tab_unsaved h st
  let gate : Nat := if dirty then 1 else 0
  if dirty && !answer then (st, gate)
  else
    let tabs' := st.tabs.eraseIdx st.currentIdx
    let st' := { st with tabs := tabs', currentIdx := min st.currentIdx (tabs'.length - 1) }
    if tabs'.length = 0 then (create_file h st', gate) else (st', gate)

/-- Result of the Exit command: whether `self.destroy()` ran, how many
times the Confirmation Gate was invoked, and the editor state (unchanged
in every branch — `confirm_quit` mutates nothing). -/
structure QuitResult where
  terminated : Bool
  gateInvocations : Nat
  state : EditorState
  deriving Repr, DecidableEq

/-- `confirm_quit` (lines 213–234), with `answer` the reply the gate
would give: scan all tabs, breaking at the first unsaved one; if one was
found ask `confirm_close()` once and abort on No; otherwise destroy. -/
def confirm_quit (h : String → Int) (st : EditorState)
    (answer : Bool) : QuitResult :=
  let unsaved := st.tabs.any (isDirtyTab h st.textContents)
  if unsaved && !answer then ⟨false, 1, st⟩
  else ⟨true, if unsaved then 1 else 0, st⟩

/-! ### Concrete fixtures for witnesses and counterexamples -/

/-- A concrete fingerprint function for the concrete instances below (any
function serves; the length stands in for Python's seeded string hash). -/
def hLen : String → Int := fun s => (s.length : Int)

/-- A concrete state: one tab whose buffer was edited to `"hello"` after
creation with empty content, so it is dirty. -/
def stOne : EditorState :=
  ⟨[⟨"text0", "Untitled", "hello"⟩], 0, [("text0", hLen "")], 1⟩

/-- A concrete state: one clean tab whose notebook label is `a*` — e.g.
just saved under the file name `a*` (the label is set to the base name
verbatim) with buffer equal to the recorded content. -/
def stStar : EditorState :=
  ⟨[⟨"text0", "a*", ""⟩], 0, [("text0", hLen "")], 1⟩

/-- A concrete state: one clean tab whose notebook label is `a**`. -/
def stStars : EditorState :=
  ⟨[⟨"text0", "a**", ""⟩], 0, [("text0", hLen "")], 1⟩

/-- A concrete state: one clean default tab (as right after start-up). -/
def stClean : EditorState :=
  ⟨[⟨"text0", "Untitled", ""⟩], 0, [("text0", hLen "")], 1⟩

/-- A concrete file system: two readable files sharing base name and
content, one writable path, one path whose write fails with
`PermissionError`; everything else is unreadable and fails writes with
`FileNotFoundError`. -/
def fsDemo : FS :=
  { files := fun p => if p = "a/f.txt" ∨ p = "b/f.txt" then some "hi" else none
    writeMode := fun p =>
      if p = "/ok/n.txt" then .ok
      else if p = "/ro/n.txt" then .permission
      else .notFound }

/-! ### Dictionary lemmas -/

theorem dictGet_dictSet_self (d : List (String × Int)) (k : String) (v : Int) :
    dictGet (dictSet d k v) k = some v := by
  induction d with
  | nil => simp [dictGet, dictSet]
  | cons kv rest ih =>
    by_cases hk : kv.1 = k
    · simp [dictSet, hk, dictGet]
    · simp [dictSet, hk, dictGet, ih]

theorem dictGet_dictSet_isSome (d : List (String × Int)) (k k' : String) (v : Int)
    (h : (dictGet d k).isSome) : (dictGet (dictSet d k' v) k).isSome := by
  induction d with
  | nil =>
    simp [dictGet] at h
  | cons kv rest ih =>
    by_cases h1 : kv.1 = k'
    · by_cases h2 : k' = k
      · simp [dictSet, dictGet, h1, h2]
      · have hk : kv.1 ≠ k := h1 ▸ h2
        simp [dictGet, hk] at h
        simp [dictSet, dictGet, h1, h2, h]
    · by_cases hk : kv.1 = k
      · have hkk : ¬k = k' := hk ▸ h1
        simp [dictSet, dictGet, h1, hk, hkk]
      · simp [dictGet, hk] at h
        simp [dictSet, dictGet, h1, hk, ih h]

/-! ### Label-toggle lemmas -/

theorem getLast_toggleLabel_true (label : String) :
    (toggleLabel true label).data.getLast? = some '*' := by
  unfold toggleLabel
  by_cases hc : label.data.getLast? = some '*'
  · simp [hc]
  · simp [hc]

theorem toggleLabel_toggleLabel (d : Bool) (label : String)
    (hnn : ¬(label.data.getLast? = some '*' ∧ label.data.dropLast.getLast? = some '*')) :
    toggleLabel d (toggleLabel d label) = toggleLabel d label := by
  cases d with
  | false =>
    by_cases hc : label.data.getLast? = some '*'
    · have h2 : ¬(label.data.dropLast.getLast? = some '*') := fun h => hnn ⟨hc, h⟩
      unfold toggleLabel
      simp [hc, h2]
    · unfold toggleLabel
      simp [hc]
  | true =>
    have hlast := getLast_toggleLabel_true label
    show (if (toggleLabel true label).data.getLast? ≠ some '*' then
        toggleLabel true label ++ "*" else toggleLabel true label) = toggleLabel true label
    simp [hlast]

/-! ### Claim theorems -/

/-- C1: for every tab and every chosen save path, after a successful Save
the tab is not dirty (`is_current_tab_unsaved` returns `false`, because
the stored fingerprint is updated to the fingerprint of the written
buffer) and the tab's notebook label equals the base name of the saved
path. -/
theorem save_file_success_clears_dirty (h : String → Int) (st : EditorState)
    (fs : FS) (p : String) (tab : Tab)
    (hcur : currentTab st = some tab) (hw : fs.writeMode p = .ok) :
    is_current_tab_unsaved h (save_file h st fs p).1 = false ∧
    (currentTab (save_file h st fs p).1).map Tab.label = some (baseName p) := by
  have hcur' : st.tabs[st.currentIdx]? = some tab := hcur
  have hlt : st.currentIdx < st.tabs.length := (List.getElem?_eq_some.mp hcur').choose
  constructor
  · simp [is_current_tab_unsaved, currentTab, save_file, hcur', hw,
      List.getElem?_set_eq_of_lt _ hlt, dictGet_dictSet_self]
  · simp [currentTab, save_file, hcur', hw, List.getElem?_set_eq_of_lt _ hlt]

theorem save_file_success_clears_dirty_witness :
    currentTab stOne = some ⟨"text0", "Untitled", "hello"⟩ ∧
    fsDemo.writeMode "/ok/n.txt" = .ok ∧
    (is_current_tab_unsaved hLen (save_file hLen stOne fsDemo "/ok/n.txt").1 = false ∧
      (currentTab (save_file hLen stOne fsDemo "/ok/n.txt").1).map Tab.label
        = some (baseName "/ok/n.txt")) :=
  ⟨by decide, by decide,
    save_file_success_clears_dirty hLen stOne fsDemo "/ok/n.txt"
      ⟨"text0", "Untitled", "hello"⟩ (by decide) (by decide)⟩

/-- C2: Exit scans all tabs; the Confirmation Gate is invoked exactly
once when some tab is dirty and never when all are clean; the process
terminates exactly when all tabs are clean or the answer is Yes; and in
every branch — in particular on a negative answer — the editor state is
returned completely unchanged, every tab still present. -/
theorem confirm_quit_aggregate_gate (h : String → Int) (st : EditorState)
    (answer : Bool) :
    (confirm_quit h st answer).gateInvocations
      = (if st.tabs.any (isDirtyTab h st.textContents) then 1 else 0) ∧
    (confirm_quit h st answer).terminated
      = (!(st.tabs.any (isDirtyTab h st.textContents)) || answer) ∧
    (confirm_quit h st answer).state = st := by
  cases hq : st.tabs.any (isDirtyTab h st.textContents) <;>
    cases answer <;> simp [confirm_quit, hq]

/-- C6: closing the last remaining tab, when not blocked by the gate
(tab clean, or the answer is Yes), synchronously creates a fresh default
tab in the same command: exactly one tab is present afterward, labelled
`Untitled` with empty buffer. -/
theorem close_last_tab_recreates_default (h : String → Int) (st : EditorState)
    (answer : Bool) (tab : Tab)
    (hone : st.tabs = [tab]) (hidx : st.currentIdx = 0)
    (hproceed : is_current_tab_unsaved h st = false ∨ answer = true) :
    ((close_current_tab h st answer).1).tabs.length = 1 ∧
    ((close_current_tab h st answer).1).tabs.map (fun t => (t.label, t.buffer))
      = [("Untitled", "")] := by
  have hguard : (is_current_tab_unsaved h st && !answer) = false := by
    rcases hproceed with h1 | h1 <;> simp [h1]
  simp [close_current_tab, hguard, hone, hidx, create_file]

theorem close_last_tab_recreates_default_witness :
    stClean.tabs = [⟨"text0", "Untitled", ""⟩] ∧ stClean.currentIdx = 0 ∧
    is_current_tab_unsaved hLen stClean = false ∧
    (((close_current_tab hLen stClean true).1).tabs.length = 1 ∧
      ((close_current_tab hLen stClean true).1).tabs.map (fun t => (t.label, t.buffer))
        = [("Untitled", "")]) :=
  ⟨rfl, rfl, by decide,
    close_last_tab_recreates_default hLen stClean true ⟨"text0", "Untitled", ""⟩
      rfl rfl (Or.inl (by decide))⟩

/-- C3 counterexample: a clean tab whose stored label is `a*` (e.g. a
file named `a*` was just saved, the label being set to the base name
verbatim). The claim predicts the displayed label stays `a*` (undecorated
label, no marker since the tab is clean), but `check_for_changes` reads
the decorated notebook label's last character and strips it, leaving
`a`. -/
theorem check_for_changes_star_label_cex :
    is_current_tab_unsaved hLen stStar = false ∧
    (check_for_changes hLen stStar).tabs.map Tab.label = ["a"] ∧
    ("a" : String) ≠ "a*" := by
  decide

/-- C3 amended: provided the stored label is nonempty (Python raises
`IndexError` on an empty one) and does not itself end in `*`,
`check_for_changes` sets the displayed label to the stored label with `*`
appended exactly when the tab is dirty, and mutates nothing else. The
comparison, however, reads the decorated notebook label (its last
character) — the marker lives in the stored label state — so labels whose
undecorated form ends in `*` are mishandled. -/
theorem check_for_changes_marker_toggle (h : String → Int) (st : EditorState)
    (tab : Tab) (hcur : st.tabs[st.currentIdx]? = some tab)
    (_hne : tab.label ≠ "") (hstar : tab.label.data.getLast? ≠ some '*') :
    ((check_for_changes h st).tabs[st.currentIdx]?).map Tab.label
      = some (if isDirtyTab h st.textContents tab then tab.label ++ "*" else tab.label) ∧
    (check_for_changes h st).textContents = st.textContents ∧
    (check_for_changes h st).currentIdx = st.currentIdx := by
  have hlt : st.currentIdx < st.tabs.length := (List.getElem?_eq_some.mp hcur).choose
  refine ⟨?_, ?_, ?_⟩
  · simp only [check_for_changes, hcur]
    rw [List.getElem?_set_eq_of_lt _ hlt]
    by_cases hd : isDirtyTab h st.textContents tab = true <;>
      simp [toggleLabel, hd, hstar]
  · simp [check_for_changes, hcur]
  · simp [check_for_changes, hcur]

theorem check_for_changes_marker_toggle_witness :
    stOne.tabs[stOne.currentIdx]? = some ⟨"text0", "Untitled", "hello"⟩ ∧
    (⟨"text0", "Untitled", "hello"⟩ : Tab).label ≠ "" ∧
    (⟨"text0", "Untitled", "hello"⟩ : Tab).label.data.getLast? ≠ some '*' ∧
    (((check_for_changes hLen stOne).tabs[stOne.currentIdx]?).map Tab.label
        = some (if isDirtyTab hLen stOne.textContents ⟨"text0", "Untitled", "hello"⟩
            then (⟨"text0", "Untitled", "hello"⟩ : Tab).label ++ "*"
            else (⟨"text0", "Untitled", "hello"⟩ : Tab).label) ∧
      (check_for_changes hLen stOne).textContents = stOne.textContents ∧
      (check_for_changes hLen stOne).currentIdx = stOne.currentIdx) :=
  ⟨by decide, by decide, by decide,
    check_for_changes_marker_toggle hLen stOne ⟨"text0", "Untitled", "hello"⟩
      (by decide) (by decide) (by decide)⟩

/-- C7 counterexample: a clean tab labelled `a**` (e.g. just saved under
the file name `a**`): the first call strips one `*`, the second strips
another — the routine is not idempotent, the second call still mutates
the label. -/
theorem check_for_changes_not_idempotent_cex :
    is_current_tab_unsaved hLen stStars = false ∧
    (check_for_changes hLen stStars).tabs.map Tab.label = ["a*"] ∧
    (check_for_changes hLen (check_for_changes hLen stStars)).tabs.map Tab.label = ["a"] ∧
    check_for_changes hLen (check_for_changes hLen stStars) ≠ check_for_changes hLen stStars := by
  decide

/-- C7 amended: the dirty-check/label-update routine is idempotent — the
second of two back-to-back calls mutates nothing, and in particular no
double `*` ever accumulates — for every state whose current label does
not end in two `*` characters (equivalently, whose undecorated label does
not itself end in `*`; labels ending in `**` are reachable only by saving
a file whose name ends in `**`). -/
theorem check_for_changes_idempotent (h : String → Int) (st : EditorState)
    (tab : Tab) (hcur : st.tabs[st.currentIdx]? = some tab)
    (hnn : ¬(tab.label.data.getLast? = some '*'
        ∧ tab.label.data.dropLast.getLast? = some '*')) :
    check_for_changes h (check_for_changes h st) = check_for_changes h st := by
  have hlt : st.currentIdx < st.tabs.length := (List.getElem?_eq_some.mp hcur).choose
  set d := isDirtyTab h st.textContents tab with hd
  set tabX : Tab := { tab with label := toggleLabel d tab.label } with htabX
  have e1 : check_for_changes h st
      = { st with tabs := st.tabs.set st.currentIdx tabX } := by
    simp only [check_for_changes, hcur, htabX, hd]
  set tabY : Tab := { tab with label := toggleLabel d (toggleLabel d tab.label) } with htabY
  have e2 : check_for_changes h { st with tabs := st.tabs.set st.currentIdx tabX }
      = { st with tabs := (st.tabs.set st.currentIdx tabX).set st.currentIdx tabY } := by
    simp only [check_for_changes, List.getElem?_set_eq_of_lt tabX hlt, htabX, htabY]
    rfl
  rw [e1, e2, htabY, toggleLabel_toggleLabel d tab.label hnn, ← htabX, List.set_set]

theorem check_for_changes_idempotent_witness :
    stOne.tabs[stOne.currentIdx]? = some ⟨"text0", "Untitled", "hello"⟩ ∧
    ¬((⟨"text0", "Untitled", "hello"⟩ : Tab).label.data.getLast? = some '*'
        ∧ (⟨"text0", "Untitled", "hello"⟩ : Tab).label.data.dropLast.getLast? = some '*') ∧
    check_for_changes hLen (check_for_changes hLen stOne) = check_for_changes hLen stOne :=
  ⟨by decide, by decide,
    check_for_changes_idempotent hLen stOne ⟨"text0", "Untitled", "hello"⟩
      (by decide) (by decide)⟩

/-- C4 counterexample: opening the missing path `missing.txt` creates no
tab and changes nothing, but no `FileReadError` is reported to the user:
the command only prints the console message `Open Operation Cancelled.` —
exactly what a cancelled picker prints — and shows no dialog. -/
theorem open_missing_no_error_dialog_cex :
    (open_file hLen stOne fsDemo "missing.txt").1 = stOne ∧
    (open_file hLen stOne fsDemo "missing.txt").2
      = .consolePrint "Open Operation Cancelled." ∧
    ((open_file hLen stOne fsDemo "missing.txt").2).isUserDialog = false := by
  decide

/-- C4 amended: for every path unreadable at Open time the command
creates no new tab and leaves the whole editor state unchanged, but no
`FileReadError` is surfaced: the handler conflates the failure with user
cancellation and merely prints `Open Operation Cancelled.` to the
console. -/
theorem open_file_missing_is_noop (h : String → Int) (st : EditorState)
    (fs : FS) (p : String) (hread : fs.files p = none) :
    open_file h st fs p = (st, .consolePrint "Open Operation Cancelled.") := by
  simp [open_file, hread]

theorem open_file_missing_is_noop_witness :
    fsDemo.files "missing.txt" = none ∧
    open_file hLen stOne fsDemo "missing.txt"
      = (stOne, .consolePrint "Open Operation Cancelled.") :=
  ⟨by decide, open_file_missing_is_noop hLen stOne fsDemo "missing.txt" (by decide)⟩

/-- C5 counterexample: a write failing with `PermissionError` leaves the
tab untouched but surfaces no `FileWriteError` dialog — the exception is
not caught and escapes the handler — and a write failing with
`FileNotFoundError` merely prints `Save Operation Cancelled.` to the
console, as if the user had cancelled. -/
theorem save_write_failure_no_dialog_cex :
    (save_file hLen stOne fsDemo "/ro/n.txt").1 = stOne ∧
    (save_file hLen stOne fsDemo "/ro/n.txt").2.2 = .uncaughtException ∧
    ((save_file hLen stOne fsDemo "/ro/n.txt").2.2).isUserDialog = false ∧
    (save_file hLen stOne fsDemo "/missing/n.txt").2.2
      = .consolePrint "Save Operation Cancelled." := by
  decide

/-- C5 amended: for every tab and path, if writing fails then the editor
state and the file system are left completely unchanged — Save is
all-or-nothing — but no `FileWriteError` dialog is surfaced to the user:
a `FileNotFoundError` is logged to the console as a cancellation and any
other `OSError` escapes as an uncaught exception. -/
theorem save_file_failure_state_unchanged (h : String → Int) (st : EditorState)
    (fs : FS) (p : String) (hw : fs.writeMode p ≠ .ok) :
    (save_file h st fs p).1 = st ∧ (save_file h st fs p).2.1 = fs ∧
    ((save_file h st fs p).2.2).isUserDialog = false := by
  unfold save_file
  cases hc : currentTab st with
  | none => simp [Report.isUserDialog]
  | some tab =>
    cases hwm : fs.writeMode p with
    | ok => exact absurd hwm hw
    | notFound => simp [Report.isUserDialog]
    | permission => simp [Report.isUserDialog]

theorem save_file_failure_state_unchanged_witness :
    fsDemo.writeMode "/ro/n.txt" ≠ .ok ∧
    ((save_file hLen stOne fsDemo "/ro/n.txt").1 = stOne ∧
      (save_file hLen stOne fsDemo "/ro/n.txt").2.1 = fsDemo ∧
      ((save_file hLen stOne fsDemo "/ro/n.txt").2.2).isUserDialog = false) :=
  ⟨by decide, save_file_failure_state_unchanged hLen stOne fsDemo "/ro/n.txt" (by decide)⟩

/-- C8: round trip — after a successful Save of the current tab's buffer
to path `p`, the file at `p` holds exactly that buffer, and Opening `p`
again creates a tab whose buffer is exactly that content, byte for byte,
with no transformation injected by the write or the read. -/
theorem save_open_round_trip (h : String → Int) (st : EditorState) (fs : FS)
    (p : String) (tab : Tab)
    (hcur : currentTab st = some tab) (hw : fs.writeMode p = .ok) :
    ((save_file h st fs p).2.1).files p = some tab.buffer ∧
    (((open_file h (save_file h st fs p).1 (save_file h st fs p).2.1 p).1).tabs.getLast?).map
        Tab.buffer = some tab.buffer := by
  have hcur' : st.tabs[st.currentIdx]? = some tab := hcur
  have hfile : ((save_file h st fs p).2.1).files p = some tab.buffer := by
    simp [save_file, currentTab, hcur', hw, fsWrite]
  refine ⟨hfile, ?_⟩
  simp [open_file, hfile, create_file, List.getLast?_concat]

theorem save_open_round_trip_witness :
    currentTab stOne = some ⟨"text0", "Untitled", "hello"⟩ ∧
    fsDemo.writeMode "/ok/n.txt" = .ok ∧
    (((save_file hLen stOne fsDemo "/ok/n.txt").2.1).files "/ok/n.txt"
        = some ("hello" : String) ∧
      (((open_file hLen (save_file hLen stOne fsDemo "/ok/n.txt").1
            (save_file hLen stOne fsDemo "/ok/n.txt").2.1 "/ok/n.txt").1).tabs.getLast?).map
          Tab.buffer = some ("hello" : String)) :=
  ⟨by decide, by decide,
    save_open_round_trip hLen stOne fsDemo "/ok/n.txt" ⟨"text0", "Untitled", "hello"⟩
      (by decide) (by decide)⟩

/-- C9 counterexample: the chosen path is not recorded on the new tab.
Opening two different paths with the same base name and the same content
produces editor states equal in every component, so nothing in the state
retains which path the tab was opened from. -/
theorem open_does_not_record_path_cex :
    open_file hLen stOne fsDemo "a/f.txt" = open_file hLen stOne fsDemo "b/f.txt" ∧
    ("a/f.txt" : String) ≠ "b/f.txt" := by
  decide

/-- C9 amended: a successful Open creates a new tab holding the file's
content, labelled with the path's base name, and selects it — but no
`filePath` is recorded anywhere: the result depends on the path only
through its base name, so any two readable paths with equal base names
and equal contents yield identical states. -/
theorem open_file_creates_tab (h : String → Int) (st : EditorState) (fs : FS)
    (p q c : String) (hp : fs.files p = some c) (hq : fs.files q = some c)
    (hbase : baseName p = baseName q) :
    (open_file h st fs p).1 = create_file h st c (baseName p) ∧
    (((open_file h st fs p).1).tabs.getLast?).map (fun t => (t.label, t.buffer))
      = some (baseName p, c) ∧
    open_file h st fs p = open_file h st fs q := by
  refine ⟨by simp [open_file, hp], ?_, ?_⟩
  · simp [open_file, hp, create_file, List.getLast?_concat]
  · simp [open_file, hp, hq, hbase]

theorem open_file_creates_tab_witness :
    fsDemo.files "a/f.txt" = some ("hi" : String) ∧
    fsDemo.files "b/f.txt" = some ("hi" : String) ∧
    baseName "a/f.txt" = baseName "b/f.txt" ∧
    ((open_file hLen stOne fsDemo "a/f.txt").1
        = create_file hLen stOne "hi" (baseName "a/f.txt") ∧
      (((open_file hLen stOne fsDemo "a/f.txt").1).tabs.getLast?).map
          (fun t => (t.label, t.buffer)) = some (baseName "a/f.txt", "hi") ∧
      open_file hLen stOne fsDemo "a/f.txt" = open_file hLen stOne fsDemo "b/f.txt") :=
  ⟨by decide, by decide, by decide,
    open_file_creates_tab hLen stOne fsDemo "a/f.txt" "b/f.txt" "hi"
      (by decide) (by decide) (by decide)⟩

/-- C10: no operation ever deletes a `text_contents` entry — every key
present before any of the six state-touching operations is still present
afterward. In particular `close_current_tab` removes the tab from the
notebook but leaves its fingerprint entry in the dictionary, so the
dictionary grows monotonically over the session. -/
theorem text_contents_never_deleted (h : String → Int) (st : EditorState)
    (fs : FS) (p c t k : String) (answer : Bool)
    (hk : (dictGet st.textContents k).isSome) :
    (dictGet (create_file h st c t).textContents k).isSome ∧
    (dictGet ((close_current_tab h st answer).1).textContents k).isSome ∧
    (dictGet ((save_file h st fs p).1).textContents k).isSome ∧
    (dictGet ((open_file h st fs p).1).textContents k).isSome ∧
    (dictGet (check_for_changes h st).textContents k).isSome ∧
    (dictGet ((confirm_quit h st answer).state).textContents k).isSome := by
  refine ⟨dictGet_dictSet_isSome _ _ _ _ hk, ?_, ?_, ?_, ?_, ?_⟩
  · simp only [close_current_tab]
    split
    · exact hk
    · split
      · exact dictGet_dictSet_isSome _ _ _ _ hk
      · exact hk
  · unfold save_file
    cases hc : currentTab st with
    | none => exact hk
    | some tab =>
      cases hwm : fs.writeMode p with
      | ok => exact dictGet_dictSet_isSome _ _ _ _ hk
      | notFound => exact hk
      | permission => exact hk
  · unfold open_file
    cases hr : fs.files p with
    | none => exact hk
    | some content => exact dictGet_dictSet_isSome _ _ _ _ hk
  · unfold check_for_changes
    cases hc : st.tabs[st.currentIdx]? with
    | none => exact hk
    | some tab => exact hk
  · simp only [confirm_quit]
    split <;> exact hk

theorem text_contents_never_deleted_witness :
    (dictGet stOne.textContents "text0").isSome ∧
    ((dictGet (create_file hLen stOne "c" "t").textContents "text0").isSome ∧
      (dictGet ((close_current_tab hLen stOne true).1).textContents "text0").isSome ∧
      (dictGet ((save_file hLen stOne fsDemo "/ok/n.txt").1).textContents "text0").isSome ∧
      (dictGet ((open_file hLen stOne fsDemo "a/f.txt").1).textContents "text0").isSome ∧
      (dictGet (check_for_changes hLen stOne).textContents "text0").isSome ∧
      (dictGet ((confirm_quit hLen stOne true).state).textContents "text0").isSome) :=
  ⟨by decide,
    text_contents_never_deleted hLen stOne fsDemo "/ok/n.txt" "c" "t" "text0" true
      (by decide)⟩

end TextEditor
